import Mathlib

set_option linter.unusedVariables false

/-!
# Shallow embedding of the sunrise-rollkit DA adapter

This file embeds the Go adapter (package `sunrise`, the single source file of
the repository) in Lean 4 and proves properties of the embedded definitions.

Modelling conventions:
- Go byte slices and Go strings are both `List Nat` with every element `< 256`
  (a Go string is a byte sequence; conversions `[]byte(s)` / `string(b)` are
  the identity on the underlying bytes and are therefore modelled as `id`).
- The HTTP transport steps of a request (building the URL from
  `config.ServerURL`, `http.Post` / `client.Do`, `io.ReadAll`,
  `json.Unmarshal` of the response body) are collapsed into an oracle
  function passed to the embedded operation: for `Submit` an oracle
  `publish : PublishRequest → Except Err PublishResponse`, for `Get` an
  oracle `fetch : List Nat → Except Err GetBlobResponse` keyed by the
  `metadata_uri` query parameter. A failure of any of the collapsed steps is
  an `Except.error` of the oracle. The request payloads the adapter itself
  constructs (the base64 blob field, the shard counts, the protocol tag) are
  modelled explicitly.
- `base64.StdEncoding.EncodeToString` / `DecodeString` are modelled as
  `encB64` / `decB64` over ASCII byte values (padding byte 61 is the
  character `=`). The decoder mirrors Go's standard (non-strict) decoder on
  newline-free input: length a multiple of 4, padding only at the end,
  non-alphabet bytes rejected, trailing padding bits ignored.
- The concurrent fan-out of `Submit` is modelled by an explicit completion
  order: `completed` is the list of input blobs in the order their goroutines
  finished, i.e. the order in which the two buffered channels received
  values; theorems that quantify over schedules take `completed.Perm daBlobs`
  as a hypothesis.
-/

namespace Sunrise

/-- Bytes of the base64 standard alphabet, in order:
`A`-`Z`, `a`-`z`, `0`-`9`, `+`, `/`. -/
def b64Table : List Nat :=
  [65, 66, 67, 68, 69, 70, 71, 72, 73, 74, 75, 76, 77, 78, 79, 80, 81, 82,
   83, 84, 85, 86, 87, 88, 89, 90,
   97, 98, 99, 100, 101, 102, 103, 104, 105, 106, 107, 108, 109, 110, 111,
   112, 113, 114, 115, 116, 117, 118, 119, 120, 121, 122,
   48, 49, 50, 51, 52, 53, 54, 55, 56, 57, 43, 47]

/-- The alphabet byte encoding a 6-bit value. -/
def b64Char (v : Nat) : Nat := b64Table.getD v 0

/-- Linear scan used to invert the alphabet. -/
def b64IndexAux : List Nat → Nat → Nat → Option Nat
  | [], _, _ => none
  | t :: rest, i, c => if t = c then some i else b64IndexAux rest (i + 1) c

/-- The 6-bit value a byte decodes to, or `none` for a byte outside the
alphabet (in particular for the padding byte 61). -/
def b64Index (c : Nat) : Option Nat := b64IndexAux b64Table 0 c

/-- `base64.StdEncoding.EncodeToString`: three input bytes become four
alphabet bytes; a final group of two or one input bytes is padded with one
or two `=` (byte 61). -/
def encB64 : List Nat → List Nat
  | b0 :: b1 :: b2 :: rest =>
    b64Char (b0 / 4) :: b64Char (b0 % 4 * 16 + b1 / 16) ::
      b64Char (b1 % 16 * 4 + b2 / 64) :: b64Char (b2 % 64) :: encB64 rest
  | [b0, b1] => [b64Char (b0 / 4), b64Char (b0 % 4 * 16 + b1 / 16),
      b64Char (b1 % 16 * 4), 61]
  | [b0] => [b64Char (b0 / 4), b64Char (b0 % 4 * 16), 61, 61]
  | [] => []

/-- `base64.StdEncoding.DecodeString` on newline-free input: consumes four
bytes per quantum, allows `=` padding only in the final quantum, rejects
non-alphabet bytes and lengths that are not a multiple of four, and (like
Go's non-strict decoder) ignores the trailing bits covered by padding. -/
def decB64 : List Nat → Option (List Nat)
  | [] => some []
  | c0 :: c1 :: c2 :: c3 :: rest =>
    match b64Index c0, b64Index c1 with
    | some v0, some v1 =>
      if c2 = 61 then
        if c3 = 61 then
          if rest = [] then some [v0 * 4 + v1 / 16] else none
        else none
      else
        match b64Index c2 with
        | some v2 =>
          if c3 = 61 then
            if rest = [] then some [v0 * 4 + v1 / 16, v1 % 16 * 16 + v2 / 4]
            else none
          else
            match b64Index c3 with
            | some v3 =>
              match decB64 rest with
              | some bs =>
                some ((v0 * 4 + v1 / 16) :: (v1 % 16 * 16 + v2 / 4) ::
                  (v2 % 4 * 64 + v3) :: bs)
              | none => none
            | none => none
        | none => none
    | _, _ => none
  | _ => none

theorem b64Index_b64Char : ∀ v < 64, b64Index (b64Char v) = some v := by decide

theorem b64Char_ne_pad : ∀ v < 64, b64Char v ≠ 61 := by decide

theorem decB64_quad (v0 v1 v2 v3 : Nat) (cs : List Nat)
    (h0 : v0 < 64) (h1 : v1 < 64) (h2 : v2 < 64) (h3 : v3 < 64) :
    decB64 (b64Char v0 :: b64Char v1 :: b64Char v2 :: b64Char v3 :: cs) =
      match decB64 cs with
      | some bs =>
        some ((v0 * 4 + v1 / 16) :: (v1 % 16 * 16 + v2 / 4) ::
          (v2 % 4 * 64 + v3) :: bs)
      | none => none := by
  simp only [decB64, b64Index_b64Char v0 h0, b64Index_b64Char v1 h1,
    b64Index_b64Char v2 h2, b64Index_b64Char v3 h3,
    if_neg (b64Char_ne_pad v2 h2), if_neg (b64Char_ne_pad v3 h3)]

theorem decB64_pad1 (v0 v1 v2 : Nat) (h0 : v0 < 64) (h1 : v1 < 64) (h2 : v2 < 64) :
    decB64 [b64Char v0, b64Char v1, b64Char v2, 61] =
      some [v0 * 4 + v1 / 16, v1 % 16 * 16 + v2 / 4] := by
  simp [decB64, b64Index_b64Char v0 h0, b64Index_b64Char v1 h1,
    b64Index_b64Char v2 h2, if_neg (b64Char_ne_pad v2 h2)]

theorem decB64_pad2 (v0 v1 : Nat) (h0 : v0 < 64) (h1 : v1 < 64) :
    decB64 [b64Char v0, b64Char v1, 61, 61] = some [v0 * 4 + v1 / 16] := by
  simp [decB64, b64Index_b64Char v0 h0, b64Index_b64Char v1 h1]

/-- Go's standard base64 decoding inverts encoding on any byte string. -/
theorem decB64_encB64 (b : List Nat) :
    (∀ x ∈ b, x < 256) → decB64 (encB64 b) = some b := by
  induction b using encB64.induct with
  | case1 b0 b1 b2 rest ih =>
    intro hb
    have h0 : b0 < 256 := hb b0 (by simp)
    have h1 : b1 < 256 := hb b1 (by simp)
    have h2 : b2 < 256 := hb b2 (by simp)
    have hr : ∀ x ∈ rest, x < 256 := fun x hx => hb x (by simp [hx])
    simp only [encB64]
    rw [decB64_quad _ _ _ _ _ (by omega) (by omega) (by omega) (by omega),
      ih hr]
    have e0 : b0 / 4 * 4 + (b0 % 4 * 16 + b1 / 16) / 16 = b0 := by omega
    have e1 : (b0 % 4 * 16 + b1 / 16) % 16 * 16 + (b1 % 16 * 4 + b2 / 64) / 4 = b1 := by
      omega
    have e2 : (b1 % 16 * 4 + b2 / 64) % 4 * 64 + b2 % 64 = b2 := by omega
    rw [e0, e1, e2]
  | case2 b0 b1 =>
    intro hb
    have h0 : b0 < 256 := hb b0 (by simp)
    have h1 : b1 < 256 := hb b1 (by simp)
    simp only [encB64]
    rw [decB64_pad1 _ _ _ (by omega) (by omega) (by omega)]
    have e0 : b0 / 4 * 4 + (b0 % 4 * 16 + b1 / 16) / 16 = b0 := by omega
    have e1 : (b0 % 4 * 16 + b1 / 16) % 16 * 16 + b1 % 16 * 4 / 4 = b1 := by omega
    rw [e0, e1]
  | case3 b0 =>
    intro hb
    have h0 : b0 < 256 := hb b0 (by simp)
    simp only [encB64]
    rw [decB64_pad2 _ _ (by omega) (by omega)]
    have e0 : b0 / 4 * 4 + b0 % 4 * 16 / 16 = b0 := by omega
    rw [e0]
  | case4 =>
    intro _
    rfl

/-! ## Data model of the adapter -/

/-- Errors surfaced by the embedded operations. Oracle errors stand for the
collapsed transport steps (`http.Post` / `client.Do`, `io.ReadAll`,
`json.Unmarshal`); `corruptInput` is `base64.CorruptInputError` raised by
`Get` itself when decoding the response blob field. -/
inductive Err where
  | publishFailed (msg : List Nat)
  | fetchFailed (msg : List Nat)
  | corruptInput
deriving DecidableEq

/-- JSON body of `POST {base}/api/publish` (Go struct `PublishRequest`). -/
structure PublishRequest where
  blob : List Nat
  data_shard_count : Nat
  parity_shard_count : Nat
  protocol : List Nat
deriving DecidableEq

/-- JSON body of the publish response (Go struct `PublishResponse`). -/
structure PublishResponse where
  tx_hash : List Nat
  metadata_uri : List Nat
deriving DecidableEq

/-- JSON body of the get-blob response (Go struct `GetBlobResponse`). -/
structure GetBlobResponse where
  blob : List Nat
deriving DecidableEq

/-- Go struct `Config`. -/
structure Config where
  serverURL : List Nat
  dataShardCount : Nat
  parityShardCount : Nat
  grpcServerAddress : List Nat
deriving DecidableEq

/-- A `context.Context` is opaque to the adapter; only its cancellation
state could conceivably matter, so that is all the model keeps. -/
structure Ctx where
  cancelled : Bool
deriving DecidableEq

/-- Go struct `SunriseDA`. -/
structure SunriseDA where
  ctx : Ctx
  config : Config
deriving DecidableEq

/-- Go func `NewSunriseDA`. -/
def NewSunriseDA (ctx : Ctx) (config : Config) : SunriseDA :=
  { ctx := ctx, config := config }

/-- `da.Namespace`: accepted but never interpreted by this adapter. -/
abbrev DANamespace := List Nat

/-- The `([]da.ID, error)` pair `Submit` evaluates to. `ret ids e` is an
executed `return ids, e` statement; `missingReturn` is control reaching the
end of the function body with no `return` statement (which the source does
on the path where the error channel yields no error). -/
inductive SubmitResult where
  | ret (ids : Option (List (List Nat))) (e : Option Err)
  | missingReturn
deriving DecidableEq

/-- True exactly when the result is an executed `return nil, err` with a
non-nil error: an error return carrying no identifier list. -/
def isErrNilReturn : SubmitResult → Bool
  | SubmitResult.ret none (some _) => true
  | _ => false

/-! ## The operations -/

/-- Go method `MaxBlobSize`. -/
def MaxBlobSize (sunrise : SunriseDA) (ctx : Ctx) : Nat × Option Err :=
  (64 * 64 * 500, none)

/-- The JSON request body each `Submit` goroutine builds for one blob:
`{blob: base64(blob), data_shard_count, parity_shard_count, protocol: "ipfs"}`
(the protocol tag is the byte string `ipfs`). -/
def publishRequestFor (config : Config) (blob : List Nat) : PublishRequest :=
  { blob := encB64 blob
    data_shard_count := config.dataShardCount
    parity_shard_count := config.parityShardCount
    protocol := [105, 112, 102, 115] }

/-- Go method `Submit`. `publish` is the transport oracle for one goroutine
body (POST, read, unmarshal). `completed` is the order in which the
goroutines finished: the buffered result and error channels receive values
in this order, and after `wg.Wait` closes both channels the main body drains
`resultChan` into `ids` and then receives once from `errorChan` — the first
error in completion order, or nil if the channel is empty. On a non-nil
error it executes `return nil, err`; otherwise control falls off the end of
the function, which has no final return statement in the source. -/
def Submit (sunrise : SunriseDA) (publish : PublishRequest → Except Err PublishResponse)
    (ctx : Ctx) (daBlobs : List (List Nat)) (gasPrice : Int) (ns : DANamespace)
    (completed : List (List Nat)) : SubmitResult :=
  let results := completed.filterMap fun blob =>
    match publish (publishRequestFor sunrise.config blob) with
    | Except.ok r => some r
    | Except.error _ => none
  let ids := results.map fun r => r.metadata_uri
  let errs := completed.filterMap fun blob =>
    match publish (publishRequestFor sunrise.config blob) with
    | Except.ok _ => none
    | Except.error e => some e
  match errs with
  | e :: _ => SubmitResult.ret none (some e)
  | [] => SubmitResult.missingReturn

/-- The loop body of Go method `Get`, with `blobs` the accumulator slice.
Per id: issue `GET {base}/api/get-blob?metadata_uri={string(id)}` (the
oracle `fetch`, keyed by the id bytes, which pass through `string(id)`
unchanged), then base64-decode the response blob field; any failure returns
immediately with a nil blob slice. -/
def GetLoop (fetch : List Nat → Except Err GetBlobResponse) :
    List (List Nat) → List (List Nat) → Except Err (List (List Nat))
  | blobs, [] => Except.ok blobs
  | blobs, id :: rest =>
    match fetch id with
    | Except.error e => Except.error e
    | Except.ok blobResponse =>
      match decB64 blobResponse.blob with
      | none => Except.error Err.corruptInput
      | some decodedBlob => GetLoop fetch (blobs ++ [decodedBlob]) rest

/-- Go method `Get`. -/
def Get (sunrise : SunriseDA) (fetch : List Nat → Except Err GetBlobResponse)
    (ctx : Ctx) (ids : List (List Nat)) (ns : DANamespace) :
    Except Err (List (List Nat)) :=
  GetLoop fetch [] ids

/-- `binary.BigEndian.PutUint32` into the first four bytes of a slice: the
big-endian bytes of a 32-bit value. -/
def bigEndianPutUint32 (v : Nat) : List Nat :=
  [v / 2 ^ 24 % 256, v / 2 ^ 16 % 256, v / 2 ^ 8 % 256, v % 256]

/-- Go method `GetIDs`: truncate the height to 32 bits (`uint32(height)`),
allocate eight zero bytes, and write the 32-bit value big-endian into the
first four of them. -/
def GetIDs (c : SunriseDA) (ctx : Ctx) (height : Nat) (ns : DANamespace) :
    List (List Nat) × Option Err :=
  let heightAsUint32 := height % 2 ^ 32
  let ids := bigEndianPutUint32 heightAsUint32 ++ [0, 0, 0, 0]
  ([ids], none)

/-- Go method `GetProofs`: returns the nil proof slice and nil error. -/
def GetProofs (sunrise : SunriseDA) (ctx : Ctx) (ids : List (List Nat))
    (ns : DANamespace) : List (List Nat) × Option Err :=
  ([], none)

/-- Go method `Commit`: returns the nil commitment slice and nil error. -/
def Commit (sunrise : SunriseDA) (ctx : Ctx) (daBlobs : List (List Nat))
    (ns : DANamespace) : List (List Nat) × Option Err :=
  ([], none)

/-- Go method `Validate`: returns the nil bool slice and nil error. -/
def Validate (sunrise : SunriseDA) (ctx : Ctx) (ids : List (List Nat))
    (daProofs : List (List Nat)) (ns : DANamespace) : List Bool × Option Err :=
  ([], none)

/-! ## Helper lemmas about the operations -/

/-- `Except` result is an error (the Go pattern `blobs == nil && err != nil`). -/
def isErrorResult : Except Err (List (List Nat)) → Bool
  | Except.error _ => true
  | Except.ok _ => false

/-- Fetching one id fails: either the transport oracle errs, or the response
blob field does not base64-decode. -/
def fetchFails (fetch : List Nat → Except Err GetBlobResponse) (id : List Nat) : Prop :=
  (∃ e, fetch id = Except.error e) ∨
  (∃ r, fetch id = Except.ok r ∧ decB64 r.blob = none)

theorem GetLoop_all_success (fetch : List Nat → Except Err GetBlobResponse)
    (blobResp : List Nat → GetBlobResponse) (decoded : List Nat → List Nat) :
    ∀ (ids acc : List (List Nat)),
      (∀ id ∈ ids, fetch id = Except.ok (blobResp id)) →
      (∀ id ∈ ids, decB64 (blobResp id).blob = some (decoded id)) →
      GetLoop fetch acc ids = Except.ok (acc ++ ids.map decoded) := by
  intro ids
  induction ids with
  | nil => intro acc _ _; simp [GetLoop]
  | cons id rest ih =>
    intro acc hok hdec
    simp only [GetLoop, hok id (by simp), hdec id (by simp)]
    rw [ih (acc ++ [decoded id]) (fun i hi => hok i (by simp [hi]))
      (fun i hi => hdec i (by simp [hi]))]
    simp

theorem GetLoop_past_successes (fetch : List Nat → Except Err GetBlobResponse)
    (blobResp : List Nat → GetBlobResponse) (decoded : List Nat → List Nat) :
    ∀ (pre acc tail : List (List Nat)),
      (∀ id ∈ pre, fetch id = Except.ok (blobResp id)) →
      (∀ id ∈ pre, decB64 (blobResp id).blob = some (decoded id)) →
      GetLoop fetch acc (pre ++ tail) = GetLoop fetch (acc ++ pre.map decoded) tail := by
  intro pre
  induction pre with
  | nil => intro acc tail _ _; simp
  | cons id rest ih =>
    intro acc tail hok hdec
    simp only [List.cons_append, GetLoop, hok id (by simp), hdec id (by simp),
      List.append_eq]
    rw [ih (acc ++ [decoded id]) tail (fun i hi => hok i (by simp [hi]))
      (fun i hi => hdec i (by simp [hi]))]
    simp

theorem GetLoop_bad_head (fetch : List Nat → Except Err GetBlobResponse)
    (bad : List Nat) (hbad : fetchFails fetch bad) (acc post : List (List Nat)) :
    GetLoop fetch acc (bad :: post) = GetLoop fetch acc [bad] ∧
    isErrorResult (GetLoop fetch acc [bad]) = true := by
  rcases hbad with ⟨e, he⟩ | ⟨r, hr, hd⟩
  · simp [GetLoop, he, isErrorResult]
  · simp [GetLoop, hr, hd, isErrorResult]

/-! ## Concrete instances used by the witnesses -/

def demoCtx : Ctx := { cancelled := false }

def demoCfg : Config :=
  { serverURL := [104, 116, 116, 112]
    dataShardCount := 1
    parityShardCount := 1
    grpcServerAddress := [] }

def demoSunrise : SunriseDA := NewSunriseDA demoCtx demoCfg

def demoNs : DANamespace := []

/-- Publish oracle on which every call succeeds with locator `loc1`. -/
def okPublish : PublishRequest → Except Err PublishResponse :=
  fun _ => Except.ok { tx_hash := [], metadata_uri := [108, 111, 99, 49] }

/-- Publish oracle on which every call fails. -/
def failPublish : PublishRequest → Except Err PublishResponse :=
  fun _ => Except.error (Err.publishFailed [])

/-- Fetch oracle that returns, for every id, a blob field holding the
base64 encoding of the id bytes themselves. -/
def demoFetch : List Nat → Except Err GetBlobResponse :=
  fun id => Except.ok { blob := encB64 id }

/-- Fetch oracle that fails on the id `bad` and echoes otherwise. -/
def demoFetchWithFailure : List Nat → Except Err GetBlobResponse :=
  fun id =>
    if id = [98, 97, 100] then Except.error (Err.fetchFailed [])
    else Except.ok { blob := encB64 id }

/-- Fetch oracle of a store in which locator `loc1` holds the published
base64 encoding of the blob `A`. -/
def demoConsistentFetch : List Nat → Except Err GetBlobResponse :=
  fun id =>
    if id = [108, 111, 99, 49] then Except.ok { blob := encB64 [65] }
    else Except.error (Err.fetchFailed [])

/-! ## The claims -/

/-- Claim C1. The claim states that on a non-empty batch where every remote
publish succeeds, `Submit` returns one identifier per input blob. The source
violates this: on the path where the error channel yields no error, the
function body ends without any return statement (the Go compiler rejects
this function with a missing-return error), so the success branch never
returns the drained identifier list. Evaluated here at the failing input: a
one-blob batch whose publish succeeds reaches the missing-return point. -/
theorem Submit_missing_return_on_success :
    Submit demoSunrise okPublish demoCtx [[65]] 0 demoNs [[65]] =
      SubmitResult.missingReturn := rfl

/-- Claim C2: for every batch in which at least one per-blob publish fails,
`Submit` executes `return nil, err` — an error together with a nil
identifier list, regardless of the completion order of the goroutines, so
no locator of a successfully published blob in the batch is returned. -/
theorem Submit_all_or_nothing (sunrise : SunriseDA)
    (publish : PublishRequest → Except Err PublishResponse) (ctx : Ctx)
    (daBlobs : List (List Nat)) (gasPrice : Int) (ns : DANamespace)
    (completed : List (List Nat)) (hperm : completed.Perm daBlobs)
    (bad : List Nat) (hmem : bad ∈ daBlobs) (e0 : Err)
    (hfail : publish (publishRequestFor sunrise.config bad) = Except.error e0) :
    isErrNilReturn (Submit sunrise publish ctx daBlobs gasPrice ns completed) = true := by
  have hmem2 : bad ∈ completed := hperm.mem_iff.mpr hmem
  have he : e0 ∈ completed.filterMap fun blob =>
      match publish (publishRequestFor sunrise.config blob) with
      | Except.ok _ => none
      | Except.error e => some e := by
    refine List.mem_filterMap.mpr ⟨bad, hmem2, ?_⟩
    rw [hfail]
  simp only [Submit]
  cases herrs : completed.filterMap fun blob =>
      match publish (publishRequestFor sunrise.config blob) with
      | Except.ok _ => none
      | Except.error e => some e with
  | nil => rw [herrs] at he; exact absurd he (List.not_mem_nil e0)
  | cons e es => rfl

/-- Witness for C2 at a concrete input: a one-blob batch whose publish
fails. -/
theorem Submit_all_or_nothing_witness :
    isErrNilReturn (Submit demoSunrise failPublish demoCtx [[65]] 0 demoNs [[65]]) =
      true :=
  Submit_all_or_nothing demoSunrise failPublish demoCtx [[65]] 0 demoNs [[65]]
    (List.Perm.refl _) [65] (by simp) (Err.publishFailed []) rfl

/-- Claim C3, counterexample: the claim says the low (last) four bytes of
the identifier returned by `GetIDs` equal the 32-bit big-endian
representation of the height. At height 1 the identifier is
`[0, 0, 0, 1, 0, 0, 0, 0]` — `PutUint32` wrote the height into the first
four bytes — so its last four bytes are `[0, 0, 0, 0]`, not `[0, 0, 0, 1]`. -/
theorem GetIDs_low_bytes_counterexample :
    (GetIDs demoSunrise demoCtx 1 demoNs).1.map (fun id => id.drop 4) ≠
      [bigEndianPutUint32 (1 % 2 ^ 32)] := by decide

/-- Claim C3 as amended: for every height, `GetIDs` returns exactly one
identifier and no error; the identifier is 8 bytes long, its first (high)
four bytes are the 32-bit big-endian representation of the height modulo
2^32 (the fold below reads those four bytes back as a big-endian number),
its last four bytes are zero, and heights of 2^32 and above truncate
silently to the low 32 bits. -/
theorem GetIDs_spec (sunrise : SunriseDA) (ctx : Ctx) (height : Nat)
    (ns : DANamespace) :
    GetIDs sunrise ctx height ns =
      ([bigEndianPutUint32 (height % 2 ^ 32) ++ [0, 0, 0, 0]], none) ∧
    (bigEndianPutUint32 (height % 2 ^ 32) ++ [0, 0, 0, 0]).length = 8 ∧
    (bigEndianPutUint32 (height % 2 ^ 32) ++ [0, 0, 0, 0]).take 4 =
      bigEndianPutUint32 (height % 2 ^ 32) ∧
    (bigEndianPutUint32 (height % 2 ^ 32) ++ [0, 0, 0, 0]).drop 4 =
      [0, 0, 0, 0] ∧
    (bigEndianPutUint32 (height % 2 ^ 32)).foldl (fun acc b => acc * 256 + b) 0 =
      height % 2 ^ 32 ∧
    GetIDs sunrise ctx (height + 2 ^ 32) ns = GetIDs sunrise ctx height ns := by
  refine ⟨rfl, rfl, rfl, rfl, ?_, ?_⟩
  · simp only [bigEndianPutUint32, List.foldl]
    omega
  · simp [GetIDs, Nat.add_mod_right]

/-- Claim C4: for any blob, fetching via `Get` the raw locator bytes that
the publish request for that blob was answered with returns the blob
byte-identical, whenever the store is consistent — the fetch endpoint
returns for that locator exactly the base64 blob field the publish request
carried. `Get` passes the identifier bytes through unchanged as the
`metadata_uri` key, and its base64 decode inverts the base64 encoding
`Submit` applied when building the publish request. -/
theorem Submit_Get_roundtrip (sunrise : SunriseDA)
    (fetch : List Nat → Except Err GetBlobResponse) (ctx : Ctx)
    (ns : DANamespace) (B loc : List Nat) (hB : ∀ x ∈ B, x < 256)
    (hstore : fetch loc =
      Except.ok { blob := (publishRequestFor sunrise.config B).blob }) :
    Get sunrise fetch ctx [loc] ns = Except.ok [B] := by
  have hdec : decB64 (publishRequestFor sunrise.config B).blob = some B := by
    simpa [publishRequestFor] using decB64_encB64 B hB
  simp [Get, GetLoop, hstore, hdec]

/-- Witness for C4 at a concrete input: blob `A`, locator `loc1`, a store
holding the published encoding `QQ==` at `loc1`. -/
theorem Submit_Get_roundtrip_witness :
    Get demoSunrise demoConsistentFetch demoCtx [[108, 111, 99, 49]] demoNs =
      Except.ok [[65]] :=
  Submit_Get_roundtrip demoSunrise demoConsistentFetch demoCtx demoNs [65]
    [108, 111, 99, 49] (by decide) rfl

/-- Claim C5: when every id in the list fetches a well-formed response,
`Get` returns exactly one blob per input id, in input order, each the
base64 decoding of the blob field of that id's response. -/
theorem Get_all_success (sunrise : SunriseDA)
    (fetch : List Nat → Except Err GetBlobResponse) (ctx : Ctx)
    (ns : DANamespace) (ids : List (List Nat))
    (blobResp : List Nat → GetBlobResponse) (decoded : List Nat → List Nat)
    (hok : ∀ id ∈ ids, fetch id = Except.ok (blobResp id))
    (hdec : ∀ id ∈ ids, decB64 (blobResp id).blob = some (decoded id)) :
    Get sunrise fetch ctx ids ns = Except.ok (ids.map decoded) := by
  simpa [Get] using GetLoop_all_success fetch blobResp decoded ids [] hok hdec

/-- Witness for C5 at a concrete input: two ids against an echoing store. -/
theorem Get_all_success_witness :
    Get demoSunrise demoFetch demoCtx [[108, 111, 99, 49], [108, 111, 99, 50]]
        demoNs =
      Except.ok [[108, 111, 99, 49], [108, 111, 99, 50]] := by
  have h := Get_all_success demoSunrise demoFetch demoCtx demoNs
    [[108, 111, 99, 49], [108, 111, 99, 50]]
    (fun id => { blob := encB64 id }) (fun id => id)
    (fun id _ => rfl) (by decide)
  simpa using h

/-- Claim C6: when some id in the list fails to fetch or to decode, `Get`
returns an error and no blob list; it fails at the first failing id — the
result is the same as if the list had been cut right after that id, so the
blobs fetched before it are discarded and the ids after it do not influence
the result. -/
theorem Get_fails_on_first_bad_id (sunrise : SunriseDA)
    (fetch : List Nat → Except Err GetBlobResponse) (ctx : Ctx)
    (ns : DANamespace) (pre post : List (List Nat)) (bad : List Nat)
    (blobResp : List Nat → GetBlobResponse) (decoded : List Nat → List Nat)
    (hok : ∀ id ∈ pre, fetch id = Except.ok (blobResp id))
    (hdec : ∀ id ∈ pre, decB64 (blobResp id).blob = some (decoded id))
    (hbad : fetchFails fetch bad) :
    Get sunrise fetch ctx (pre ++ bad :: post) ns =
      Get sunrise fetch ctx (pre ++ [bad]) ns ∧
    isErrorResult (Get sunrise fetch ctx (pre ++ [bad]) ns) = true := by
  have h1 := GetLoop_past_successes fetch blobResp decoded pre [] (bad :: post) hok hdec
  have h2 := GetLoop_past_successes fetch blobResp decoded pre [] [bad] hok hdec
  have h3 := GetLoop_bad_head fetch bad hbad (pre.map decoded) post
  simp only [Get, h1, h2, List.nil_append]
  exact h3

/-- Witness for C6 at a concrete input: a good id, then a failing id, then a
trailing id. -/
theorem Get_fails_on_first_bad_id_witness :
    Get demoSunrise demoFetchWithFailure demoCtx
        [[108, 111, 99, 49], [98, 97, 100], [122]] demoNs =
      Get demoSunrise demoFetchWithFailure demoCtx
        [[108, 111, 99, 49], [98, 97, 100]] demoNs ∧
    isErrorResult (Get demoSunrise demoFetchWithFailure demoCtx
        [[108, 111, 99, 49], [98, 97, 100]] demoNs) = true := by
  exact Get_fails_on_first_bad_id demoSunrise demoFetchWithFailure demoCtx demoNs
    [[108, 111, 99, 49]] [[122]] [98, 97, 100]
    (fun id => { blob := encB64 id }) (fun id => id)
    (by intro id hid; rw [List.mem_singleton] at hid; subst hid; rfl)
    (by decide) (Or.inl ⟨Err.fetchFailed [], rfl⟩)

/-- Claim C7: `MaxBlobSize` returns the fixed constant 64*64*500 = 2048000
and no error for every receiver and every context, whatever its
cancellation state. -/
theorem MaxBlobSize_const (sunrise : SunriseDA) (ctx : Ctx) :
    MaxBlobSize sunrise ctx = (64 * 64 * 500, none) ∧
    (MaxBlobSize sunrise ctx).1 = 2048000 :=
  ⟨rfl, rfl⟩

/-- Claim C8: `GetProofs`, `Commit` and `Validate` each return the empty
sequence and no error for every input, including non-empty id, blob and
proof lists. -/
theorem stubs_return_empty (sunrise : SunriseDA) (ctx : Ctx)
    (ids daBlobs daProofs : List (List Nat)) (ns : DANamespace) :
    GetProofs sunrise ctx ids ns = ([], none) ∧
    Commit sunrise ctx daBlobs ns = ([], none) ∧
    Validate sunrise ctx ids daProofs ns = ([], none) :=
  ⟨rfl, rfl, rfl⟩

/-- Claim C9: the identifier list returned by `GetIDs` depends only on the
height: any two receivers (hence any two adapter configurations), contexts
and namespaces give byte-identical results at the same height. -/
theorem GetIDs_depends_only_on_height (s1 s2 : SunriseDA) (ctx1 ctx2 : Ctx)
    (ns1 ns2 : DANamespace) (height : Nat) :
    GetIDs s1 ctx1 height ns1 = GetIDs s2 ctx2 height ns2 := rfl

/-- Claim C10: on the empty id list, `Get` returns no error and the empty
blob list, for every fetch oracle — no remote call can influence the
result. -/
theorem Get_empty_ids (sunrise : SunriseDA)
    (fetch : List Nat → Except Err GetBlobResponse) (ctx : Ctx)
    (ns : DANamespace) :
    Get sunrise fetch ctx [] ns = Except.ok [] := rfl

end Sunrise
